import Mathlib

/-!
Shallow embedding of `src/force-app/main/default/lwc/accountList/accountList.js`,
the only source file of the repository: a Lightning Web Component that lists,
creates, edits and deletes Account records through four Apex operations.

Modelling conventions:
  * JS `undefined`/`null` is `Option.none`; a possibly-absent string field is
    `Option String`.
  * The asynchronous promise chains (`.then/.catch/.finally`) are modelled by
    passing the remote call's outcome (`Except RemoteError Unit`) to the
    handler and computing the state after the whole chain has settled,
    together with the ordered list of observable effects emitted along the
    way (toasts, remote calls, refresh requests, loading-flag writes).
  * `refreshApex` is modelled as the effect `Eff.refresh`; its own resolution
    carries no data the component inspects.
  * JS truthiness: for the strings held in component fields, falsy means the
    empty string; for optional values, `none` is falsy and `some ""` is falsy
    as well (`jsTruthy`). An array (the wired `result.data`) is truthy
    whenever present, even when empty.
-/

/-- An Account record as provisioned by the Apex service. `Id` is always
present; the other five fields may be absent (JS `undefined`). -/
structure Account where
  Id : String
  Name : Option String
  Industry : Option String
  Phone : Option String
  Description : Option String
  Site : Option String
deriving DecidableEq

/-- The `body` of a rejected call's error object; `body.message` may be
absent. -/
structure ErrBody where
  message : Option String
deriving DecidableEq

/-- The error object of a rejected remote call; `error.body` may itself be
absent. -/
structure RemoteError where
  body : Option ErrBody
deriving DecidableEq

/-- Observable effects of a handler, in emission order. The toast `message` is
`Option String` because the create failure path passes `error.body.message`,
which may be the JS value `undefined` (`none`); every other call site passes a
string literal or a string-valued expression. `setLoading` records each write
to `this.isLoading`. -/
inductive Eff where
  | toast (title : String) (message : Option String) (variant : String)
  | remoteCreate (name industry phone description site : String)
  | remoteDelete (accountId : String)
  | remoteUpdate (accountId name industry phone description site : String)
  | refresh
  | setLoading (b : Bool)
deriving DecidableEq

/-- The component's reactive state: wired data (`accounts`/`error`), the
loading flag, the five create-form fields and the edit-form state
(`editRecordId` plus five fields). `wiredAccountsResult` is only a refresh
handle in the source and carries no state the claims mention, so it is not
replicated here; `isEditingThisRow`, a render-time derived flag, is likewise
presentation-only. -/
structure ComponentState where
  accounts : Option (List Account)
  error : Option RemoteError
  isLoading : Bool
  accountName : String
  accountIndustry : String
  accountPhone : String
  accountDescription : String
  accountSite : String
  editRecordId : Option String
  editName : String
  editIndustry : String
  editPhone : String
  editDescription : String
  editSite : String
deriving DecidableEq

/-- The component's field initialisers: everything unset, empty or false. -/
def initialState : ComponentState :=
  { accounts := none, error := none, isLoading := false,
    accountName := "", accountIndustry := "", accountPhone := "",
    accountDescription := "", accountSite := "",
    editRecordId := none, editName := "", editIndustry := "",
    editPhone := "", editDescription := "", editSite := "" }

/-- JS truthiness of an optional string: `undefined`/`null` and the empty
string are falsy. -/
def jsTruthy (o : Option String) : Bool :=
  match o with
  | none => false
  | some s => s ≠ ""

/-- Models the JS expression `error.body?.message || fallback`: optional
chaining yields `undefined` when `body` is absent, and `||` replaces any falsy
value (`undefined`, or the empty string) with the fallback. -/
def jsErrMsg (e : RemoteError) (fallback : String) : String :=
  match e.body with
  | some b =>
      match b.message with
      | some m => if m = "" then fallback else m
      | none => fallback
  | none => fallback

/-- The argument the wire service passes to `wiredAccounts`. During wire
pre-provisioning both fields are absent; a settled fetch carries exactly one
of them. -/
structure WireResult where
  data : Option (List Account)
  error : Option RemoteError
deriving DecidableEq

/-- `wiredAccounts(result)`: `if (result.data)` stores the collection and
clears the error; `else if (result.error)` stores the error, clears the
collection and emits one error toast; otherwise nothing happens. A JS array is
truthy even when empty, so `some d` is exactly the truthy case of
`result.data`. -/
def wiredAccounts (s : ComponentState) (result : WireResult) :
    ComponentState × List Eff :=
  match result.data with
  | some d => ({ s with accounts := some d, error := none }, [])
  | none =>
      match result.error with
      | some e =>
          ({ s with error := some e, accounts := none },
           [Eff.toast "Error" (some "Error loading accounts") "error"])
      | none => (s, [])

/-- `handleNameChange`: copies the input value into `accountName`. -/
def handleNameChange (s : ComponentState) (value : String) : ComponentState :=
  { s with accountName := value }

/-- `handleIndustryChange`. -/
def handleIndustryChange (s : ComponentState) (value : String) : ComponentState :=
  { s with accountIndustry := value }

/-- `handlePhoneChange`. -/
def handlePhoneChange (s : ComponentState) (value : String) : ComponentState :=
  { s with accountPhone := value }

/-- `handleDescriptionChange`. -/
def handleDescriptionChange (s : ComponentState) (value : String) : ComponentState :=
  { s with accountDescription := value }

/-- `handleSiteChange`. -/
def handleSiteChange (s : ComponentState) (value : String) : ComponentState :=
  { s with accountSite := value }

/-- `handleCreateAccount`: aborts with one error toast when `accountName` is
empty (falsy); otherwise sets loading, calls `createAccount` with the five
fields and, on success, toasts, clears the form and refreshes; on failure the
catch evaluates `error.body.message` with no optional chaining and no
fallback, so when `body` is absent the catch callback itself throws and no
toast is dispatched (the `finally` still clears the loading flag). -/
def handleCreateAccount (s : ComponentState) (outcome : Except RemoteError Unit) :
    ComponentState × List Eff :=
  if s.accountName = "" then
    (s, [Eff.toast "Error" (some "Account name is required") "error"])
  else
    let callEffs : List Eff :=
      [Eff.setLoading true,
       Eff.remoteCreate s.accountName s.accountIndustry s.accountPhone
         s.accountDescription s.accountSite]
    match outcome with
    | Except.ok _ =>
        ({ s with
            isLoading := false
            accountName := ""
            accountIndustry := ""
            accountPhone := ""
            accountDescription := ""
            accountSite := "" },
         callEffs ++
           [Eff.toast "Success" (some "Account created successfully") "success",
            Eff.refresh, Eff.setLoading false])
    | Except.error e =>
        ({ s with isLoading := false },
         callEffs ++
           (match e.body with
            | some b => [Eff.toast "Error" b.message "error"]
            | none => []) ++
           [Eff.setLoading false])

/-- `handleDeleteAccount`: does nothing at all when the blocking `confirm`
prompt is declined; when confirmed, sets loading, calls `deleteAccount`, and
toasts success plus refresh, or an error toast built by
`error.body?.message || 'Delete failed'`; the `finally` clears loading. -/
def handleDeleteAccount (s : ComponentState) (accountId : String)
    (confirmed : Bool) (outcome : Except RemoteError Unit) :
    ComponentState × List Eff :=
  if confirmed then
    match outcome with
    | Except.ok _ =>
        ({ s with isLoading := false },
         [Eff.setLoading true, Eff.remoteDelete accountId,
          Eff.toast "Success" (some "Account deleted successfully") "success",
          Eff.refresh, Eff.setLoading false])
    | Except.error e =>
        ({ s with isLoading := false },
         [Eff.setLoading true, Eff.remoteDelete accountId,
          Eff.toast "Error" (some (jsErrMsg e "Delete failed")) "error",
          Eff.setLoading false])
  else (s, [])

/-- `handleStartEdit`: evaluates `this.accounts.find(a => a.Id === accountId)`.
When `this.accounts` is `undefined` the member access throws a TypeError, so
the handler produces no result at all (`none`). Otherwise: not found emits one
error toast and leaves the state alone; found copies the record's five fields
into the edit form, each `|| ''` defaulting an absent field to the empty
string, and sets `editRecordId`. -/
def handleStartEdit (s : ComponentState) (accountId : String) :
    Option (ComponentState × List Eff) :=
  match s.accounts with
  | none => none
  | some l =>
      match l.find? (fun a => a.Id == accountId) with
      | none =>
          some (s, [Eff.toast "Error"
            (some "Account not found in the current list") "error"])
      | some record =>
          some ({ s with
              editRecordId := some accountId,
              editName := record.Name.getD "",
              editIndustry := record.Industry.getD "",
              editPhone := record.Phone.getD "",
              editDescription := record.Description.getD "",
              editSite := record.Site.getD "" }, [])

/-- `handleEditFieldChange`: five independent `if` statements keyed on the
input's `name`; at most one matches. -/
def handleEditFieldChange (s : ComponentState) (field value : String) :
    ComponentState :=
  let s := if field = "editName" then { s with editName := value } else s
  let s := if field = "editIndustry" then { s with editIndustry := value } else s
  let s := if field = "editPhone" then { s with editPhone := value } else s
  let s := if field = "editDescription" then { s with editDescription := value } else s
  if field = "editSite" then { s with editSite := value } else s

/-- `handleCancelEdit`: clears `editRecordId` and the five edit fields; no
effect is emitted. -/
def handleCancelEdit (s : ComponentState) : ComponentState × List Eff :=
  ({ s with
      editRecordId := none
      editName := ""
      editIndustry := ""
      editPhone := ""
      editDescription := ""
      editSite := "" }, [])

/-- `handleSaveEdit`: aborts with one error toast when `editRecordId` is falsy
(`null`, or an empty-string id), then when `editName` is empty; otherwise sets
loading and calls `updateAccount` with the id and the five edit fields. On
success: success toast, `handleCancelEdit()`, refresh. On failure: error toast
with `error.body?.message || 'Update failed'`. The `finally` clears loading. -/
def handleSaveEdit (s : ComponentState) (outcome : Except RemoteError Unit) :
    ComponentState × List Eff :=
  if jsTruthy s.editRecordId = false then
    (s, [Eff.toast "Error" (some "No record selected for update") "error"])
  else if s.editName = "" then
    (s, [Eff.toast "Error" (some "Name is required") "error"])
  else
    let callEffs : List Eff :=
      [Eff.setLoading true,
       Eff.remoteUpdate (s.editRecordId.getD "") s.editName s.editIndustry
         s.editPhone s.editDescription s.editSite]
    match outcome with
    | Except.ok _ =>
        ({ (handleCancelEdit s).1 with isLoading := false },
         callEffs ++
           [Eff.toast "Success" (some "Account updated successfully") "success",
            Eff.refresh, Eff.setLoading false])
    | Except.error e =>
        ({ s with isLoading := false },
         callEffs ++
           [Eff.toast "Error" (some (jsErrMsg e "Update failed")) "error",
            Eff.setLoading false])

/-- Is this effect an error-variant toast? -/
def isErrorToast : Eff → Bool
  | Eff.toast _ _ v => v == "error"
  | _ => false

/-- Is this effect any remote service call (create, delete or update)? -/
def isRemoteCall : Eff → Bool
  | Eff.remoteCreate _ _ _ _ _ => true
  | Eff.remoteDelete _ => true
  | Eff.remoteUpdate _ _ _ _ _ _ => true
  | _ => false

/-- Is this effect a list-refresh request? -/
def isRefresh : Eff → Bool
  | Eff.refresh => true
  | _ => false

/-- The error-variant toasts of an effect trace, in order. -/
def errorToasts (effs : List Eff) : List Eff :=
  effs.filter isErrorToast

/-- Sample record used in concrete scenarios: the spec's
`{id:"1", Name:"Acme"}` with every other field absent. -/
def acme : Account :=
  { Id := "1", Name := some "Acme", Industry := none, Phone := none,
    Description := none, Site := none }

/-- The component after a successful fetch of the one-record collection
`[acme]`. -/
def listState : ComponentState :=
  { initialState with accounts := some [acme] }

/-- A rejected call whose error has a `body` but no `message` field. -/
def msgAbsentError : RemoteError :=
  { body := some { message := none } }

/-- C1: for every create-form submission with an empty name, the handler
leaves the whole state unchanged (so the five create-form fields, the loading
flag and the cached collection in particular), emits exactly one error
notification, and performs no remote call, whatever outcome the (never made)
remote call would have had. -/
theorem create_empty_name_aborts (s : ComponentState)
    (o : Except RemoteError Unit) (h : s.accountName = "") :
    (handleCreateAccount s o).1 = s ∧
    (handleCreateAccount s o).2
      = [Eff.toast "Error" (some "Account name is required") "error"] ∧
    ((handleCreateAccount s o).2.countP isErrorToast) = 1 ∧
    ((handleCreateAccount s o).2.countP isRemoteCall) = 0 := by
  simp [handleCreateAccount, h, List.countP, List.countP.go, isErrorToast,
    isRemoteCall]

/-- Witness for C1 at the initial state (whose name field is empty). -/
theorem create_empty_name_aborts_witness :
    (handleCreateAccount initialState (Except.ok ())).1 = initialState ∧
    (handleCreateAccount initialState (Except.ok ())).2
      = [Eff.toast "Error" (some "Account name is required") "error"] ∧
    ((handleCreateAccount initialState (Except.ok ())).2.countP isErrorToast) = 1 ∧
    ((handleCreateAccount initialState (Except.ok ())).2.countP isRemoteCall) = 0 :=
  create_empty_name_aborts initialState (Except.ok ()) rfl

/-- C9: a delete action whose confirmation prompt is declined returns the
state unchanged and emits no effect at all: no remote call, no notification,
no loading-flag write. -/
theorem delete_declined_noop (s : ComponentState) (accId : String)
    (o : Except RemoteError Unit) :
    handleDeleteAccount s accId false o = (s, []) := by
  simp [handleDeleteAccount]

/-- C10: `handleStartEdit` is total only when the cached collection is
present: with `accounts` unset the member access on `undefined` throws
(modelled `none`, so in particular the not-found branch with its toast is
never reached), and with `accounts` set the handler produces a result for
every id. -/
theorem start_edit_requires_accounts (s : ComponentState) (X : String) :
    (s.accounts = none → handleStartEdit s X = none) ∧
    (∀ l, s.accounts = some l → (handleStartEdit s X).isSome = true) := by
  constructor
  · intro h
    simp [handleStartEdit, h]
  · intro l h
    cases hf : l.find? (fun a => a.Id == X) <;>
      simp [handleStartEdit, h, hf]

/-- Witness for C10: from the initial state (no cached collection) start-edit
throws; from a fetched one-record collection it produces a result for an
arbitrary id. -/
theorem start_edit_requires_accounts_witness :
    handleStartEdit initialState "1" = none ∧
    (handleStartEdit listState "999").isSome = true :=
  ⟨(start_edit_requires_accounts initialState "1").1 rfl,
   (start_edit_requires_accounts listState "999").2 [acme] rfl⟩

/-- C3 counterexample: the wired handler is also invoked with a result that
carries neither data nor error (wire pre-provisioning); from the initial
state such an invocation leaves BOTH the cached collection and the error slot
unset, so it is not the case that exactly one of them is populated after
every invocation of the handler. -/
theorem wire_both_unset_cex :
    (wiredAccounts initialState { data := none, error := none }).1.accounts = none ∧
    (wiredAccounts initialState { data := none, error := none }).1.error = none := by
  constructor <;> rfl

/-- C3 amended: after every invocation of the wired handler whose result
carries data or carries an error, exactly one of the cached collection and
the error slot is populated and the other is unset; an invocation carrying
neither leaves the state untouched. -/
theorem wire_exactly_one_populated (s : ComponentState) (r : WireResult)
    (h : r.data.isSome = true ∨ r.error.isSome = true) :
    ((wiredAccounts s r).1.accounts.isSome = true ∧
      (wiredAccounts s r).1.error = none) ∨
    ((wiredAccounts s r).1.accounts = none ∧
      (wiredAccounts s r).1.error.isSome = true) := by
  cases hd : r.data with
  | some d => left; simp [wiredAccounts, hd]
  | none =>
      cases he : r.error with
      | some e => right; simp [wiredAccounts, hd, he]
      | none => simp [hd, he] at h

/-- Witness for C3's amended statement: a successful fetch of the empty
collection populates the cache and clears the error. -/
theorem wire_exactly_one_populated_witness :
    ((wiredAccounts initialState { data := some [], error := none }).1.accounts.isSome = true ∧
      (wiredAccounts initialState { data := some [], error := none }).1.error = none) ∨
    ((wiredAccounts initialState { data := some [], error := none }).1.accounts = none ∧
      (wiredAccounts initialState { data := some [], error := none }).1.error.isSome = true) :=
  wire_exactly_one_populated initialState { data := some [], error := none }
    (Or.inl rfl)

/-- C4: a successful fetch (result carries data) stores the returned
collection verbatim in the cache, clears the error slot and emits nothing; a
failed fetch (no data, an error) clears the cache, stores the error and emits
exactly one error notification. -/
theorem wire_fetch_result (s : ComponentState) (r : WireResult) :
    (∀ l, r.data = some l →
      (wiredAccounts s r).1.accounts = some l ∧
      (wiredAccounts s r).1.error = none ∧
      (wiredAccounts s r).2 = []) ∧
    (∀ e, r.data = none → r.error = some e →
      (wiredAccounts s r).1.accounts = none ∧
      (wiredAccounts s r).1.error = some e ∧
      (wiredAccounts s r).2
        = [Eff.toast "Error" (some "Error loading accounts") "error"]) := by
  constructor
  · intro l hd
    simp [wiredAccounts, hd]
  · intro e hd he
    simp [wiredAccounts, hd, he]

/-- Witness for C4 on both branches: a fetch returning `[acme]`, and a failed
fetch carrying `msgAbsentError`. -/
theorem wire_fetch_result_witness :
    ((wiredAccounts initialState { data := some [acme], error := none }).1.accounts
        = some [acme] ∧
      (wiredAccounts initialState { data := some [acme], error := none }).1.error
        = none ∧
      (wiredAccounts initialState { data := some [acme], error := none }).2 = []) ∧
    ((wiredAccounts initialState { data := none, error := some msgAbsentError }).1.accounts
        = none ∧
      (wiredAccounts initialState { data := none, error := some msgAbsentError }).1.error
        = some msgAbsentError ∧
      (wiredAccounts initialState { data := none, error := some msgAbsentError }).2
        = [Eff.toast "Error" (some "Error loading accounts") "error"]) :=
  ⟨(wire_fetch_result initialState { data := some [acme], error := none }).1
      [acme] rfl,
   (wire_fetch_result initialState { data := none, error := some msgAbsentError }).2
      msgAbsentError rfl rfl⟩

/-- C6: with a cached collection in place, starting an edit on id X copies
the found record's five fields into the edit form (each absent field
defaulting to the empty string) and sets the editing id to X; when no record
with id X exists the handler returns the state unchanged with exactly one
error notification. -/
theorem start_edit_lookup (s : ComponentState) (l : List Account) (X : String)
    (h : s.accounts = some l) :
    (∀ r, l.find? (fun a => a.Id == X) = some r →
      handleStartEdit s X = some ({ s with
          editRecordId := some X
          editName := r.Name.getD ""
          editIndustry := r.Industry.getD ""
          editPhone := r.Phone.getD ""
          editDescription := r.Description.getD ""
          editSite := r.Site.getD "" }, [])) ∧
    (l.find? (fun a => a.Id == X) = none →
      handleStartEdit s X
        = some (s, [Eff.toast "Error"
            (some "Account not found in the current list") "error"])) := by
  constructor
  · intro r hf
    simp [handleStartEdit, h, hf]
  · intro hf
    simp [handleStartEdit, h, hf]

/-- Witness for C6, the spec's scenario: collection `[acme]`; start-edit on
"1" fills the form with Acme's fields (name "Acme", the rest defaulted to "")
and sets the editing id; start-edit on "999" leaves the state unchanged with
one error toast. -/
theorem start_edit_lookup_witness :
    handleStartEdit listState "1" = some ({ listState with
        editRecordId := some "1"
        editName := acme.Name.getD ""
        editIndustry := acme.Industry.getD ""
        editPhone := acme.Phone.getD ""
        editDescription := acme.Description.getD ""
        editSite := acme.Site.getD "" }, []) ∧
    handleStartEdit listState "999"
      = some (listState, [Eff.toast "Error"
          (some "Account not found in the current list") "error"]) :=
  ⟨(start_edit_lookup listState [acme] "1" rfl).1 acme (by decide),
   (start_edit_lookup listState [acme] "999" rfl).2 (by decide)⟩

/-- C5: saving the edit form with a set (truthy) editing id and a non-empty
name: on remote success the component returns to idle — editing id unset and
all five edit fields cleared — and the effect trace contains exactly one
refresh; on remote failure the editing id and all five edit fields keep their
values and the trace contains no refresh. -/
theorem save_edit_outcomes (s : ComponentState) (e : RemoteError)
    (hid : jsTruthy s.editRecordId = true) (hn : s.editName ≠ "") :
    ((handleSaveEdit s (Except.ok ())).1.editRecordId = none ∧
     (handleSaveEdit s (Except.ok ())).1.editName = "" ∧
     (handleSaveEdit s (Except.ok ())).1.editIndustry = "" ∧
     (handleSaveEdit s (Except.ok ())).1.editPhone = "" ∧
     (handleSaveEdit s (Except.ok ())).1.editDescription = "" ∧
     (handleSaveEdit s (Except.ok ())).1.editSite = "" ∧
     (handleSaveEdit s (Except.ok ())).2.countP isRefresh = 1) ∧
    ((handleSaveEdit s (Except.error e)).1.editRecordId = s.editRecordId ∧
     (handleSaveEdit s (Except.error e)).1.editName = s.editName ∧
     (handleSaveEdit s (Except.error e)).1.editIndustry = s.editIndustry ∧
     (handleSaveEdit s (Except.error e)).1.editPhone = s.editPhone ∧
     (handleSaveEdit s (Except.error e)).1.editDescription = s.editDescription ∧
     (handleSaveEdit s (Except.error e)).1.editSite = s.editSite ∧
     (handleSaveEdit s (Except.error e)).2.countP isRefresh = 0) := by
  constructor <;>
    simp [handleSaveEdit, hid, hn, handleCancelEdit, List.countP_cons,
      List.countP_nil, isRefresh]

/-- Witness for C5 at a concrete editing state (id "1", name "NewName") and
the concrete error `msgAbsentError`. -/
theorem save_edit_outcomes_witness :
    ((handleSaveEdit { listState with editRecordId := some "1", editName := "NewName" }
        (Except.ok ())).1.editRecordId = none ∧
     (handleSaveEdit { listState with editRecordId := some "1", editName := "NewName" }
        (Except.ok ())).1.editName = "" ∧
     (handleSaveEdit { listState with editRecordId := some "1", editName := "NewName" }
        (Except.ok ())).1.editIndustry = "" ∧
     (handleSaveEdit { listState with editRecordId := some "1", editName := "NewName" }
        (Except.ok ())).1.editPhone = "" ∧
     (handleSaveEdit { listState with editRecordId := some "1", editName := "NewName" }
        (Except.ok ())).1.editDescription = "" ∧
     (handleSaveEdit { listState with editRecordId := some "1", editName := "NewName" }
        (Except.ok ())).1.editSite = "" ∧
     (handleSaveEdit { listState with editRecordId := some "1", editName := "NewName" }
        (Except.ok ())).2.countP isRefresh = 1) ∧
    ((handleSaveEdit { listState with editRecordId := some "1", editName := "NewName" }
        (Except.error msgAbsentError)).1.editRecordId
        = ComponentState.editRecordId { listState with editRecordId := some "1", editName := "NewName" } ∧
     (handleSaveEdit { listState with editRecordId := some "1", editName := "NewName" }
        (Except.error msgAbsentError)).1.editName
        = ComponentState.editName { listState with editRecordId := some "1", editName := "NewName" } ∧
     (handleSaveEdit { listState with editRecordId := some "1", editName := "NewName" }
        (Except.error msgAbsentError)).1.editIndustry
        = ComponentState.editIndustry { listState with editRecordId := some "1", editName := "NewName" } ∧
     (handleSaveEdit { listState with editRecordId := some "1", editName := "NewName" }
        (Except.error msgAbsentError)).1.editPhone
        = ComponentState.editPhone { listState with editRecordId := some "1", editName := "NewName" } ∧
     (handleSaveEdit { listState with editRecordId := some "1", editName := "NewName" }
        (Except.error msgAbsentError)).1.editDescription
        = ComponentState.editDescription { listState with editRecordId := some "1", editName := "NewName" } ∧
     (handleSaveEdit { listState with editRecordId := some "1", editName := "NewName" }
        (Except.error msgAbsentError)).1.editSite
        = ComponentState.editSite { listState with editRecordId := some "1", editName := "NewName" } ∧
     (handleSaveEdit { listState with editRecordId := some "1", editName := "NewName" }
        (Except.error msgAbsentError)).2.countP isRefresh = 0) :=
  save_edit_outcomes { listState with editRecordId := some "1", editName := "NewName" }
    msgAbsentError rfl (by decide)

/-- C8: from every state, cancel unsets the editing id, clears all five edit
fields and emits no effect (in particular no remote call); and whenever a
start-edit on any id X produces a state, its effects contain no remote call
and cancelling from that state restores the edit-form state to the
component's initial empty values. -/
theorem cancel_edit_resets (s : ComponentState) (X : String) :
    ((handleCancelEdit s).1.editRecordId = none ∧
     (handleCancelEdit s).1.editName = "" ∧
     (handleCancelEdit s).1.editIndustry = "" ∧
     (handleCancelEdit s).1.editPhone = "" ∧
     (handleCancelEdit s).1.editDescription = "" ∧
     (handleCancelEdit s).1.editSite = "" ∧
     (handleCancelEdit s).2 = []) ∧
    (∀ s1 effs1, handleStartEdit s X = some (s1, effs1) →
      effs1.countP isRemoteCall = 0 ∧
      (handleCancelEdit s1).1.editRecordId = initialState.editRecordId ∧
      (handleCancelEdit s1).1.editName = initialState.editName ∧
      (handleCancelEdit s1).1.editIndustry = initialState.editIndustry ∧
      (handleCancelEdit s1).1.editPhone = initialState.editPhone ∧
      (handleCancelEdit s1).1.editDescription = initialState.editDescription ∧
      (handleCancelEdit s1).1.editSite = initialState.editSite ∧
      (handleCancelEdit s1).2 = []) := by
  constructor
  · simp [handleCancelEdit]
  · intro s1 effs1 h1
    cases ha : s.accounts with
    | none => simp [handleStartEdit, ha] at h1
    | some l =>
        cases hf : l.find? (fun a => a.Id == X) with
        | none =>
            simp only [handleStartEdit, ha, hf, Option.some.injEq,
              Prod.mk.injEq] at h1
            obtain ⟨hs, he⟩ := h1
            subst hs; subst he
            simp [handleCancelEdit, initialState, List.countP_cons,
              List.countP_nil, isRemoteCall]
        | some r =>
            simp only [handleStartEdit, ha, hf, Option.some.injEq,
              Prod.mk.injEq] at h1
            obtain ⟨hs, he⟩ := h1
            subst hs; subst he
            simp [handleCancelEdit, initialState, List.countP_nil]

/-- Witness for C8: start-edit on "1" over the fetched collection `[acme]`,
then cancel. -/
theorem cancel_edit_resets_witness :
    ((handleCancelEdit listState).1.editRecordId = none ∧
     (handleCancelEdit listState).1.editName = "" ∧
     (handleCancelEdit listState).1.editIndustry = "" ∧
     (handleCancelEdit listState).1.editPhone = "" ∧
     (handleCancelEdit listState).1.editDescription = "" ∧
     (handleCancelEdit listState).1.editSite = "" ∧
     (handleCancelEdit listState).2 = []) ∧
    (∀ s1 effs1, handleStartEdit listState "1" = some (s1, effs1) →
      effs1.countP isRemoteCall = 0 ∧
      (handleCancelEdit s1).1.editRecordId = initialState.editRecordId ∧
      (handleCancelEdit s1).1.editName = initialState.editName ∧
      (handleCancelEdit s1).1.editIndustry = initialState.editIndustry ∧
      (handleCancelEdit s1).1.editPhone = initialState.editPhone ∧
      (handleCancelEdit s1).1.editDescription = initialState.editDescription ∧
      (handleCancelEdit s1).1.editSite = initialState.editSite ∧
      (handleCancelEdit s1).2 = []) :=
  cancel_edit_resets listState "1"

/-- C7: for a create that passes validation, a confirmed delete, and a save
that passes validation, on both the success and the failure outcome: the
first emitted effect sets the loading flag to true, the second is the remote
call itself (so the flag is raised before the call), the last emitted effect
clears the flag, and the final state has the loading flag false. -/
theorem mutation_loading_bracket (s : ComponentState) (accId : String)
    (o : Except RemoteError Unit)
    (hc : s.accountName ≠ "") (hid : jsTruthy s.editRecordId = true)
    (hn : s.editName ≠ "") :
    ((handleCreateAccount s o).2.head? = some (Eff.setLoading true) ∧
     (handleCreateAccount s o).2[1]?
       = some (Eff.remoteCreate s.accountName s.accountIndustry s.accountPhone
           s.accountDescription s.accountSite) ∧
     (handleCreateAccount s o).2.getLast? = some (Eff.setLoading false) ∧
     (handleCreateAccount s o).1.isLoading = false) ∧
    ((handleDeleteAccount s accId true o).2.head? = some (Eff.setLoading true) ∧
     (handleDeleteAccount s accId true o).2[1]? = some (Eff.remoteDelete accId) ∧
     (handleDeleteAccount s accId true o).2.getLast? = some (Eff.setLoading false) ∧
     (handleDeleteAccount s accId true o).1.isLoading = false) ∧
    ((handleSaveEdit s o).2.head? = some (Eff.setLoading true) ∧
     (handleSaveEdit s o).2[1]?
       = some (Eff.remoteUpdate (s.editRecordId.getD "") s.editName
           s.editIndustry s.editPhone s.editDescription s.editSite) ∧
     (handleSaveEdit s o).2.getLast? = some (Eff.setLoading false) ∧
     (handleSaveEdit s o).1.isLoading = false) := by
  refine ⟨?_, ?_, ?_⟩
  · cases o with
    | ok u =>
        simp [handleCreateAccount, hc, List.getLast?_cons_cons]
    | error e =>
        cases hb : e.body <;>
          simp [handleCreateAccount, hc, hb, List.getLast?_cons_cons]
  · cases o with
    | ok u => simp [handleDeleteAccount, List.getLast?_cons_cons]
    | error e => simp [handleDeleteAccount, List.getLast?_cons_cons]
  · cases o with
    | ok u =>
        simp [handleSaveEdit, hid, hn, handleCancelEdit, List.getLast?_cons_cons]
    | error e =>
        simp [handleSaveEdit, hid, hn, List.getLast?_cons_cons]

/-- Witness for C7 at a state ready for all three operations (create name
"Acme2", editing id "1", edit name "NewName"), with the success outcome. -/
theorem mutation_loading_bracket_witness :
    ((handleCreateAccount { listState with accountName := "Acme2", editRecordId := some "1", editName := "NewName" } (Except.ok ())).2.head?
        = some (Eff.setLoading true) ∧
     (handleCreateAccount { listState with accountName := "Acme2", editRecordId := some "1", editName := "NewName" } (Except.ok ())).2[1]?
        = some (Eff.remoteCreate
            (ComponentState.accountName { listState with accountName := "Acme2", editRecordId := some "1", editName := "NewName" })
            (ComponentState.accountIndustry { listState with accountName := "Acme2", editRecordId := some "1", editName := "NewName" })
            (ComponentState.accountPhone { listState with accountName := "Acme2", editRecordId := some "1", editName := "NewName" })
            (ComponentState.accountDescription { listState with accountName := "Acme2", editRecordId := some "1", editName := "NewName" })
            (ComponentState.accountSite { listState with accountName := "Acme2", editRecordId := some "1", editName := "NewName" })) ∧
     (handleCreateAccount { listState with accountName := "Acme2", editRecordId := some "1", editName := "NewName" } (Except.ok ())).2.getLast?
        = some (Eff.setLoading false) ∧
     (handleCreateAccount { listState with accountName := "Acme2", editRecordId := some "1", editName := "NewName" } (Except.ok ())).1.isLoading = false) ∧
    ((handleDeleteAccount { listState with accountName := "Acme2", editRecordId := some "1", editName := "NewName" } "1" true (Except.ok ())).2.head?
        = some (Eff.setLoading true) ∧
     (handleDeleteAccount { listState with accountName := "Acme2", editRecordId := some "1", editName := "NewName" } "1" true (Except.ok ())).2[1]?
        = some (Eff.remoteDelete "1") ∧
     (handleDeleteAccount { listState with accountName := "Acme2", editRecordId := some "1", editName := "NewName" } "1" true (Except.ok ())).2.getLast?
        = some (Eff.setLoading false) ∧
     (handleDeleteAccount { listState with accountName := "Acme2", editRecordId := some "1", editName := "NewName" } "1" true (Except.ok ())).1.isLoading = false) ∧
    ((handleSaveEdit { listState with accountName := "Acme2", editRecordId := some "1", editName := "NewName" } (Except.ok ())).2.head?
        = some (Eff.setLoading true) ∧
     (handleSaveEdit { listState with accountName := "Acme2", editRecordId := some "1", editName := "NewName" } (Except.ok ())).2[1]?
        = some (Eff.remoteUpdate
            (Option.getD (ComponentState.editRecordId { listState with accountName := "Acme2", editRecordId := some "1", editName := "NewName" }) "")
            (ComponentState.editName { listState with accountName := "Acme2", editRecordId := some "1", editName := "NewName" })
            (ComponentState.editIndustry { listState with accountName := "Acme2", editRecordId := some "1", editName := "NewName" })
            (ComponentState.editPhone { listState with accountName := "Acme2", editRecordId := some "1", editName := "NewName" })
            (ComponentState.editDescription { listState with accountName := "Acme2", editRecordId := some "1", editName := "NewName" })
            (ComponentState.editSite { listState with accountName := "Acme2", editRecordId := some "1", editName := "NewName" })) ∧
     (handleSaveEdit { listState with accountName := "Acme2", editRecordId := some "1", editName := "NewName" } (Except.ok ())).2.getLast?
        = some (Eff.setLoading false) ∧
     (handleSaveEdit { listState with accountName := "Acme2", editRecordId := some "1", editName := "NewName" } (Except.ok ())).1.isLoading = false) :=
  mutation_loading_bracket
    { listState with accountName := "Acme2", editRecordId := some "1", editName := "NewName" }
    "1" (Except.ok ()) (by decide) rfl (by decide)

/-- C2 counterexample: a rejected create whose error body carries no message.
The claim says the single error notification's message is then a generic
fallback string; the create catch evaluates `error.body.message` with no
fallback, so the dispatched toast's message is the JS value `undefined`
(`none`) — not a string at all. -/
theorem create_error_message_cex :
    errorToasts (handleCreateAccount { initialState with accountName := "Acme" }
        (Except.error msgAbsentError)).2
      = [Eff.toast "Error" none "error"] := by
  decide

/-- C2 amended: for rejected delete and update calls the component emits
exactly one error notification whose message is `error.body?.message` when
that is a present non-empty string, else the generic fallback ("Delete
failed" / "Update failed"); a rejected create emits exactly one error
notification whose message is `error.body.message` verbatim — the
service-supplied message when present, the JS value `undefined` when absent,
with no fallback — and when the error has no `body` at all the create catch
throws and no notification is dispatched. -/
theorem rejected_call_toast_policy (s : ComponentState) (e : RemoteError)
    (accId fb : String)
    (hc : s.accountName ≠ "") (hid : jsTruthy s.editRecordId = true)
    (hn : s.editName ≠ "") :
    errorToasts (handleDeleteAccount s accId true (Except.error e)).2
      = [Eff.toast "Error" (some (jsErrMsg e "Delete failed")) "error"] ∧
    errorToasts (handleSaveEdit s (Except.error e)).2
      = [Eff.toast "Error" (some (jsErrMsg e "Update failed")) "error"] ∧
    errorToasts (handleCreateAccount s (Except.error e)).2
      = (match e.body with
         | some b => [Eff.toast "Error" b.message "error"]
         | none => []) ∧
    (∀ b m, e.body = some b → b.message = some m → m ≠ "" → jsErrMsg e fb = m) ∧
    (∀ b, e.body = some b → b.message = none → jsErrMsg e fb = fb) ∧
    (e.body = none → jsErrMsg e fb = fb) := by
  refine ⟨?_, ?_, ?_, ?_, ?_, ?_⟩
  · simp [handleDeleteAccount, errorToasts, isErrorToast]
  · simp [handleSaveEdit, hid, hn, errorToasts, isErrorToast]
  · cases hb : e.body <;>
      simp [handleCreateAccount, hc, hb, errorToasts, isErrorToast]
  · intro b m hb hm hme
    simp [jsErrMsg, hb, hm, hme]
  · intro b hb hm
    simp [jsErrMsg, hb, hm]
  · intro hb
    simp [jsErrMsg, hb]

/-- Witness for C2's amended statement at a state ready for all three
operations and the concrete error `msgAbsentError` (body present, message
absent): delete and update fall back to their generic strings, create
dispatches the absent message verbatim. -/
theorem rejected_call_toast_policy_witness :
    errorToasts (handleDeleteAccount
        { initialState with accountName := "Acme", editRecordId := some "1", editName := "N" }
        "1" true (Except.error msgAbsentError)).2
      = [Eff.toast "Error" (some (jsErrMsg msgAbsentError "Delete failed")) "error"] ∧
    errorToasts (handleSaveEdit
        { initialState with accountName := "Acme", editRecordId := some "1", editName := "N" }
        (Except.error msgAbsentError)).2
      = [Eff.toast "Error" (some (jsErrMsg msgAbsentError "Update failed")) "error"] ∧
    errorToasts (handleCreateAccount
        { initialState with accountName := "Acme", editRecordId := some "1", editName := "N" }
        (Except.error msgAbsentError)).2
      = [Eff.toast "Error" none "error"] := by
  have h := rejected_call_toast_policy
    { initialState with accountName := "Acme", editRecordId := some "1", editName := "N" }
    msgAbsentError "1" "fb" (by decide) rfl (by decide)
  exact ⟨h.1, h.2.1, h.2.2.1⟩
